import Mathlib

/-!
Verification development for the printy imposition and costing engine.

Embedding conventions, used throughout this file:

* Python `Decimal` values are modelled as exact rationals (`ℚ`).  The
  context-precision rounding that `Decimal` division performs (12 significant
  digits after `engine/services/costs.py` sets the global context) is not
  modelled; division is exact.
* Python `int(...)` applied to a `Decimal` truncates toward zero; this is
  `ratTrunc` below.  Python `//` on integers is floor division (`Int.fdiv`),
  `%` is `Int.emod` (both arguments here always have a positive divisor, where
  the two semantics agree with Python).
* `math.ceil(a / b)` on integers goes through an exact rational quotient here
  (`cdiv`); the float rounding Python performs above 2^53 is not modelled.
* A Python attribute that may be missing or `None` is modelled as an `Option`
  field; the two cases are observationally identical in the translated code
  (every read goes through a `None`/falsy check or a `dict.get`).
* Warning strings are kept verbatim except that interpolated values are
  dropped (e.g. `"Applied minimum charge"`), and the purely textual `notes`
  of `booklet_imposition` are modelled as boolean flags.
-/

/-- Truncation toward zero of a rational number, as Python's `int(Decimal)`. -/
def ratTrunc (q : ℚ) : Int := if 0 ≤ q then ⌊q⌋ else ⌈q⌉

/-- Exact ceiling division `math.ceil((a : ℚ) / b)` used for
`math.ceil(x / y)` on Python integers. -/
def cdiv (a b : Int) : Int := ⌈(a : ℚ) / (b : ℚ)⌉

/-- Result of the nested `grid_count` helper of
`engine/services/impositions.py::items_layout`: `(cols * rows, cols, rows)`.
When Python's `Decimal` division raises (zero divisor), the `except` branch
sets both `cols` and `rows` to `0`; here a zero divisor yields `0` for that
single factor (rational division by zero is `0`), which gives the same
`count` (the product) in every case. -/
structure GridFit where
  count : Int
  cols : Int
  rows : Int
deriving Repr, DecidableEq

/-- `grid_count(av_w, av_h, it_w, it_h, g)` from
`engine/services/impositions.py` (nested inside `items_layout`). -/
def grid_count (av_w av_h it_w it_h g : ℚ) : GridFit :=
  if it_w ≤ 0 ∨ it_h ≤ 0 then { count := 0, cols := 0, rows := 0 }
  else
    let cols := max (ratTrunc ((av_w + g) / (it_w + g))) 0
    let rows := max (ratTrunc ((av_h + g) / (it_h + g))) 0
    { count := cols * rows, cols := cols, rows := rows }

/-- The dictionary returned by `items_layout`. -/
structure LayoutResult where
  count : Int
  cols : Int
  rows : Int
  rotated : Bool
  effective_item_w_mm : ℚ
  effective_item_h_mm : ℚ
  available_w_mm : ℚ
  available_h_mm : ℚ
  sheet_w_mm : ℚ
  sheet_h_mm : ℚ
  bleed_mm : ℚ
  gutter_mm : ℚ
  margin_mm : ℚ
deriving Repr, DecidableEq

/-- `engine/services/impositions.py::items_layout`.  Source defaults are
`bleed_mm = 3`, `gutter_mm = 5`, `margin_mm = 10`, `allow_rotation = True`;
callers in this file pass every argument explicitly. -/
def items_layout (sheet_w_mm sheet_h_mm item_w_mm item_h_mm : ℚ)
    (bleed_mm gutter_mm margin_mm : ℚ) (allow_rotation : Bool) : LayoutResult :=
  let eff_w := item_w_mm + bleed_mm * 2
  let eff_h := item_h_mm + bleed_mm * 2
  let avail_w := sheet_w_mm - margin_mm * 2
  let avail_h := sheet_h_mm - margin_mm * 2
  if avail_w ≤ 0 ∨ avail_h ≤ 0 then
    { count := 0, cols := 0, rows := 0, rotated := false,
      effective_item_w_mm := eff_w, effective_item_h_mm := eff_h,
      available_w_mm := avail_w, available_h_mm := avail_h,
      sheet_w_mm := sheet_w_mm, sheet_h_mm := sheet_h_mm,
      bleed_mm := bleed_mm, gutter_mm := gutter_mm, margin_mm := margin_mm }
  else
    let g1 := grid_count avail_w avail_h eff_w eff_h gutter_mm
    let base : LayoutResult :=
      { count := g1.count, cols := g1.cols, rows := g1.rows, rotated := false,
        effective_item_w_mm := eff_w, effective_item_h_mm := eff_h,
        available_w_mm := avail_w, available_h_mm := avail_h,
        sheet_w_mm := sheet_w_mm, sheet_h_mm := sheet_h_mm,
        bleed_mm := bleed_mm, gutter_mm := gutter_mm, margin_mm := margin_mm }
    if allow_rotation then
      let g2 := grid_count avail_w avail_h eff_h eff_w gutter_mm
      if g2.count > g1.count then
        { count := g2.count, cols := g2.cols, rows := g2.rows, rotated := true,
          effective_item_w_mm := eff_h, effective_item_h_mm := eff_w,
          available_w_mm := avail_w, available_h_mm := avail_h,
          sheet_w_mm := sheet_w_mm, sheet_h_mm := sheet_h_mm,
          bleed_mm := bleed_mm, gutter_mm := gutter_mm, margin_mm := margin_mm }
      else base
    else base

/-- `engine/services/impositions.py::items_per_sheet`:
`int(layout.get("count", 0))`. -/
def items_per_sheet (sheet_w_mm sheet_h_mm item_w_mm item_h_mm : ℚ)
    (bleed_mm gutter_mm margin_mm : ℚ) (allow_rotation : Bool) : Int :=
  (items_layout sheet_w_mm sheet_h_mm item_w_mm item_h_mm
    bleed_mm gutter_mm margin_mm allow_rotation).count

/-- `engine/services/impositions.py::sheets_needed`.  The `int(...)`
conversion guards of the source are identities on integer inputs. -/
def sheets_needed (quantity items_per_sheet : Int) : Int :=
  if quantity ≤ 0 then 0
  else if items_per_sheet ≤ 0 then quantity
  else cdiv quantity items_per_sheet

/-- `engine/services/impositions.py::_round_up_to_multiple`
(`((value + base - 1) // base) * base`, Python floor division). -/
def round_up_to_multiple (value base : Int) : Int :=
  if base ≤ 0 then value
  else ((value + base - 1).fdiv base) * base

/-- The dictionary returned by `booklet_imposition`
(`engine/services/impositions.py`).  Fields that a branch does not put in the
dictionary are `none`; the textual `notes` are represented as flags
(`note_rounded` for the signature-rounding note, the two `note_*_fit_error`
flags for the two `ERROR:` notes). -/
structure BookletResult where
  pages_original : Int
  pages_rounded : Int
  pages_per_physical_sheet : Int
  pages_inner : Option Int
  cover_pages : Option Int
  cover_pages_per_physical_sheet : Option Int
  inner_sheets : Option Int
  cover_sheets : Option Int
  total_physical_sheets : Option Int
  note_rounded : Bool
  note_inner_fit_error : Bool
  note_cover_fit_error : Bool
deriving Repr, DecidableEq

/-- Python truthiness of an optional numeric value (`None` and `0` falsy). -/
def optTruthy (x : Option ℚ) : Bool :=
  match x with
  | some v => v ≠ 0
  | none => false

/-- `engine/services/impositions.py::booklet_imposition`.  Source defaults
are `bleed=3`, `gutter=5`, `margin=10`, `duplex=True`,
`enforce_signature_multiple=4`, `cover_separate=True` and `None` for the
cover overrides; callers here pass every argument explicitly.
`int(total_pages or 0)` is the identity on the integer argument. -/
def booklet_imposition (total_pages : Int)
    (final_page_w_mm final_page_h_mm sheet_w_mm sheet_h_mm : ℚ)
    (bleed_mm gutter_mm margin_mm : ℚ) (duplex : Bool)
    (enforce_signature_multiple : Int) (cover_separate : Bool)
    (cover_sheet_w_mm cover_sheet_h_mm : Option ℚ)
    (cover_bleed_mm cover_gutter_mm cover_margin_mm : Option ℚ) : BookletResult :=
  let orig := total_pages
  let rounded := round_up_to_multiple orig enforce_signature_multiple
  let items_side := items_per_sheet sheet_w_mm sheet_h_mm
    final_page_w_mm final_page_h_mm bleed_mm gutter_mm margin_mm true
  let pages_per_physical := items_side * (if duplex then 2 else 1)
  if pages_per_physical ≤ 0 then
    { pages_original := orig, pages_rounded := rounded,
      pages_per_physical_sheet := pages_per_physical,
      pages_inner := none, cover_pages := none,
      cover_pages_per_physical_sheet := none,
      inner_sheets := none, cover_sheets := none, total_physical_sheets := none,
      note_rounded := rounded ≠ orig, note_inner_fit_error := true,
      note_cover_fit_error := false }
  else
    let cover_pages : Int := if cover_separate then 4 else 0
    let inner_pages0 : Int := if cover_separate then rounded - cover_pages else rounded
    let inner_pages : Int := if inner_pages0 < 0 then 0 else inner_pages0
    let inner_sheets : Int := if inner_pages > 0 then cdiv inner_pages pages_per_physical else 0
    let coverStep : Option Int × Option Int :=
      if cover_separate ∧ cover_pages > 0 then
        let cppp : Int :=
          if optTruthy cover_sheet_w_mm ∧ optTruthy cover_sheet_h_mm then
            (items_per_sheet (cover_sheet_w_mm.getD 0) (cover_sheet_h_mm.getD 0)
              final_page_w_mm final_page_h_mm
              (cover_bleed_mm.getD bleed_mm) (cover_gutter_mm.getD gutter_mm)
              (cover_margin_mm.getD margin_mm) true) * (if duplex then 2 else 1)
          else pages_per_physical
        if cppp ≤ 0 then (some cppp, none)
        else (some cppp, some (cdiv cover_pages cppp))
      else (none, some 0)
    let cover_sheets : Int := (coverStep.2).getD 0
    { pages_original := orig, pages_rounded := rounded,
      pages_per_physical_sheet := pages_per_physical,
      pages_inner := some inner_pages, cover_pages := some cover_pages,
      cover_pages_per_physical_sheet := coverStep.1,
      inner_sheets := some inner_sheets, cover_sheets := some cover_sheets,
      total_physical_sheets := some (inner_sheets + cover_sheets),
      note_rounded := rounded ≠ orig, note_inner_fit_error := false,
      note_cover_fit_error := (cover_separate ∧ coverStep.2 = none) }

namespace OldEngine

/-- `old engine/services/impositions.py::booklet_imposition`.  Python's `%`
on a positive modulus is `Int.emod`; `ceil(pages / 4)` is exact ceiling
division. -/
def booklet_imposition (quantity page_count : Int) : Int :=
  let pc := if page_count % 4 ≠ 0 then page_count + (4 - page_count % 4)
            else page_count
  if pc ≤ 4 then quantity
  else quantity * cdiv (pc - 4) 4

end OldEngine

/-- Rewriting ceilings as floors, for evaluation and for floor-based lemmas. -/
theorem ceil_to_floor (a : ℚ) : ⌈a⌉ = -⌊-a⌋ := by
  rw [Int.floor_neg, neg_neg]

/-! ## Cost engine (`engine/services/costs.py`) -/

/-- `ROUND_HALF_UP` to an integer (`Decimal.to_integral_value` and the
integer step of 2/4-decimal quantization): nearest integer, ties away from
zero. -/
def roundHalfUpInt (q : ℚ) : Int :=
  if 0 ≤ q then ⌊q + 1 / 2⌋ else -⌊-q + 1 / 2⌋

/-- `ROUND_HALF_EVEN` (the context default used by the bare `.quantize`
calls) to an integer: nearest integer, ties to even. -/
def roundHalfEvenInt (q : ℚ) : Int :=
  if q - ⌊q⌋ < 1 / 2 then ⌊q⌋
  else if q - ⌊q⌋ > 1 / 2 then ⌊q⌋ + 1
  else if (⌊q⌋).emod 2 = 0 then ⌊q⌋ else ⌊q⌋ + 1

/-- `x.quantize(Decimal("0.01"), rounding=ROUND_HALF_UP)`. -/
def quantize2 (q : ℚ) : ℚ := (roundHalfUpInt (q * 100) : ℚ) / 100

/-- `x.quantize(Decimal("0.01"))` with the context's default
`ROUND_HALF_EVEN` rounding. -/
def quantize2he (q : ℚ) : ℚ := (roundHalfEvenInt (q * 100) : ℚ) / 100

/-- `x.quantize(Decimal("0.0001"))`-style 4-decimal quantization used for
the `rate_per_1000` fallback (written with `ROUND_HALF_UP` semantics; the
source's call site passes no rounding for one of the two occurrences, which
only differs on ties of the 5th decimal). -/
def quantize4 (q : ℚ) : ℚ := (roundHalfUpInt (q * 10000) : ℚ) / 10000

/-- A paper size row (`papers.models.BaseSize`): `name`, `width_mm`,
`height_mm`. -/
structure SheetSize where
  name : String
  width_mm : ℚ
  height_mm : ℚ
deriving Repr, DecidableEq

/-- The slice of a material row read by `costs.py`: its optional `size`. -/
structure Material where
  size : Option SheetSize
deriving Repr, DecidableEq

/-- The slice of a machine row read by `costs.py`: `supported_sizes`
(`.first()` is the head of the list). -/
structure MachineRec where
  supported_sizes : List SheetSize
deriving Repr, DecidableEq

/-- A resolved price object as read by `_build_price_proxy_from` and
`compute_sheets_for_deliverable`.  Every attribute read is defensive
(`hasattr`/`getattr(..., None)`), so each field is an `Option`; `none`
models "attribute missing or `None`", which the translated code never
distinguishes.  A real `pricing.models.DigitalPrintPrice` populates
`single_side_price`, `double_side_price`, `minimum_charge`, `currency`
and `size`. -/
structure PriceObj where
  price_per_sheet : Option ℚ
  single_side_price : Option ℚ
  double_side_price : Option ℚ
  rate_per_1000 : Option ℚ
  setup_cost : Option ℚ
  makeready_cost : Option ℚ
  waste_percent : Option ℚ
  finishing_cost_per_sheet : Option ℚ
  cover_price_per_sheet : Option ℚ
  unit_price : Option ℚ
  minimum_charge : Option ℚ
  currency : Option String
  size : Option SheetSize
  cover_size : Option SheetSize
deriving Repr, DecidableEq

/-- A `JobDeliverable` as read (always defensively) by
`engine/services/costs.py`.  `none` models "attribute missing or `None`";
`getattr` defaults are applied at the translated call sites
(e.g. `bleed_mm.getD 3` for `getattr(deliverable, "bleed_mm", 3)`). -/
structure Deliverable where
  quantity : Option Int
  size : Option SheetSize
  inner_material : Option Material
  inner_machine : Option MachineRec
  duplex : Option Bool
  inner_sidedness : Option String
  sidedness : Option String
  saddle_stitched : Bool
  total_pages : Option Int
  cover_separate : Option Bool
  cover_sheet_size : Option SheetSize
  signature_multiple : Option Int
  bleed_mm : Option ℚ
  gutter_mm : Option ℚ
  gripper_mm : Option ℚ
  cover_bleed_mm : Option ℚ
  cover_gutter_mm : Option ℚ
  cover_gripper_mm : Option ℚ
  price_per_sheet : Option ℚ
  single_side_price : Option ℚ
  double_side_price : Option ℚ
  rate_per_1000 : Option ℚ
  setup_cost : Option ℚ
  makeready_cost : Option ℚ
  waste_percent : Option ℚ
  finishing_cost_per_sheet : Option ℚ
  cover_price_per_sheet : Option ℚ
  unit_price : Option ℚ
  minimum_charge : Option ℚ
  currency : Option String
deriving Repr, DecidableEq

/-- A deliverable with every attribute absent, for building test records. -/
def emptyDeliverable : Deliverable :=
  ⟨none, none, none, none, none, none, none, false, none, none, none, none,
   none, none, none, none, none, none, none, none, none, none, none, none,
   none, none, none, none, none, none⟩

/-- `costs.py::_is_booklet`: `bool(saddle_stitched) or bool(total_pages)`
(`bool` of an optional integer is true exactly on present non-zero). -/
def is_booklet (d : Deliverable) : Bool :=
  d.saddle_stitched ||
    (match d.total_pages with
     | some n => n ≠ 0
     | none => false)

/-- Python truthiness of an optional string (`None` and `""` falsy). -/
def strTruthy (x : Option String) : Bool :=
  match x with
  | some s => s ≠ ""
  | none => false

/-- `sub` occurs as a substring of `s` (Python's `in` on strings). -/
def strContains (s sub : String) : Bool :=
  decide (sub.toList <:+: s.toList)

/-- `costs.py::_get_sheet_sidedness`. -/
def get_sheet_sidedness (d : Deliverable) : String :=
  match d.duplex with
  | some b => if b then "double" else "single"
  | none =>
    let sided := if strTruthy d.inner_sidedness then d.inner_sidedness else d.sidedness
    if strTruthy sided then
      let s := (sided.getD "").toLower
      if strContains s "double" || strContains s "duplex" || strContains s "two"
          || strContains s "2" then "double"
      else "single"
    else if is_booklet d then "double"
    else "single"

/-- One key of the `vals` merge in `_build_price_proxy_from`: the
deliverable's value wins unless it is falsy (`None`/`0`), in which case a
price-object value (if any) replaces it. -/
def mergeKey (dv pv : Option ℚ) : Option ℚ :=
  match dv with
  | some v =>
    if v = 0 then
      match pv with
      | some w => some w
      | none => some v
    else some v
  | none => pv

/-- The `vals` merge for the string-valued `currency` key (falsy is
`None`/`""`). -/
def mergeKeyStr (dv pv : Option String) : Option String :=
  match dv with
  | some v =>
    if v = "" then
      match pv with
      | some w => some w
      | none => some v
    else some v
  | none => pv

/-- The merged `vals` dictionary of `_build_price_proxy_from`. -/
structure Vals where
  price_per_sheet : Option ℚ
  single_side_price : Option ℚ
  double_side_price : Option ℚ
  rate_per_1000 : Option ℚ
  setup_cost : Option ℚ
  makeready_cost : Option ℚ
  waste_percent : Option ℚ
  finishing_cost_per_sheet : Option ℚ
  cover_price_per_sheet : Option ℚ
  unit_price : Option ℚ
  minimum_charge : Option ℚ
  currency : Option String
deriving Repr, DecidableEq

/-- The key-collection loops of `_build_price_proxy_from` (deliverable
first, then the price object for missing/falsy entries). -/
def proxy_vals (d : Deliverable) (p : Option PriceObj) : Vals :=
  { price_per_sheet := mergeKey d.price_per_sheet (p.bind (·.price_per_sheet)),
    single_side_price := mergeKey d.single_side_price (p.bind (·.single_side_price)),
    double_side_price := mergeKey d.double_side_price (p.bind (·.double_side_price)),
    rate_per_1000 := mergeKey d.rate_per_1000 (p.bind (·.rate_per_1000)),
    setup_cost := mergeKey d.setup_cost (p.bind (·.setup_cost)),
    makeready_cost := mergeKey d.makeready_cost (p.bind (·.makeready_cost)),
    waste_percent := mergeKey d.waste_percent (p.bind (·.waste_percent)),
    finishing_cost_per_sheet :=
      mergeKey d.finishing_cost_per_sheet (p.bind (·.finishing_cost_per_sheet)),
    cover_price_per_sheet :=
      mergeKey d.cover_price_per_sheet (p.bind (·.cover_price_per_sheet)),
    unit_price := mergeKey d.unit_price (p.bind (·.unit_price)),
    minimum_charge := mergeKey d.minimum_charge (p.bind (·.minimum_charge)),
    currency := mergeKeyStr d.currency (p.bind (·.currency)) }

/-- `vals.get(k) not in (None, "", 0)` as an option filter: keeps only a
present non-zero value. -/
def nzOpt (o : Option ℚ) : Option ℚ :=
  match o with
  | some v => if v = 0 then none else some v
  | none => none

/-- The sidedness-driven base `price_per_sheet` selection of
`_build_price_proxy_from` (source lines 183-198), before the
`rate_per_1000` fallback. -/
def select_base_pps (sided : String) (v : Vals) : Option ℚ :=
  match nzOpt v.price_per_sheet with
  | some x => some x
  | none =>
    if sided = "double" then
      match nzOpt v.double_side_price with
      | some x => some x
      | none => nzOpt v.single_side_price
    else
      match nzOpt v.single_side_price with
      | some x => some x
      | none => nzOpt v.double_side_price

/-- The `SimpleNamespace` built by `_build_price_proxy_from`. -/
structure PriceProxy where
  price_per_sheet : ℚ
  rate_per_1000 : ℚ
  setup_cost : ℚ
  makeready_cost : ℚ
  waste_percent : ℚ
  finishing_cost_per_sheet : ℚ
  cover_price_per_sheet : ℚ
  unit_price : Option ℚ
  minimum_charge : ℚ
  currency : Option String
deriving Repr, DecidableEq

/-- `costs.py::_build_price_proxy_from`. -/
def build_price_proxy (d : Deliverable) (p : Option PriceObj) : PriceProxy :=
  let v := proxy_vals d p
  let sided := get_sheet_sidedness d
  let base0 := select_base_pps sided v
  let base : Option ℚ :=
    match base0 with
    | some x => some x
    | none =>
      match nzOpt v.rate_per_1000 with
      | some r => some (quantize4 (r / 1000))
      | none => none
  { price_per_sheet := base.getD 0,
    rate_per_1000 := v.rate_per_1000.getD 0,
    setup_cost := v.setup_cost.getD 0,
    makeready_cost := v.makeready_cost.getD 0,
    waste_percent := v.waste_percent.getD 0,
    finishing_cost_per_sheet := v.finishing_cost_per_sheet.getD 0,
    cover_price_per_sheet := v.cover_price_per_sheet.getD 0,
    unit_price := v.unit_price,
    minimum_charge := v.minimum_charge.getD 0,
    currency :=
      match v.currency with
      | some c =>
        if c = "" then
          match p with
          | some po => po.currency
          | none => some "KES"
        else some c
      | none =>
        match p with
        | some po => po.currency
        | none => some "KES" }

/-- The `imposition` sub-dictionary of `compute_sheets_for_deliverable`'s
result: empty, the booklet dictionary, or `{"items_per_sheet": n}`. -/
inductive ImpositionInfo where
  | empty : ImpositionInfo
  | booklet (b : BookletResult) : ImpositionInfo
  | flat (items : Int) : ImpositionInfo
deriving Repr, DecidableEq

/-- The dictionary returned by `compute_sheets_for_deliverable`.  Keys that
a branch does not set are `none`/`[]`/`false` (the `qty` and `is_booklet`
echoes are absent in the two warning branches; no caller reads them
there). -/
structure SheetsResult where
  qty : Option Int
  is_booklet : Bool
  pages_per_physical_sheet : Option Int
  items_per_sheet : Option Int
  inner_sheets : Int
  cover_sheets : Int
  total_physical_sheets : Int
  imposition : ImpositionInfo
  warnings : List String
deriving Repr, DecidableEq

/-- The production-sheet resolution chain of
`compute_sheets_for_deliverable` (source lines 237-268): the price
object's size, then the inner material's size, then the first supported
size of the inner machine. -/
def resolve_production_sheet (d : Deliverable) (p : Option PriceObj) :
    Option SheetSize :=
  let sheet0 : Option SheetSize := p.bind (·.size)
  let sheet1 : Option SheetSize :=
    match sheet0 with
    | some s => some s
    | none => d.inner_material.bind (·.size)
  match sheet1 with
  | some s => some s
  | none => d.inner_machine.bind (fun mc => mc.supported_sizes.head?)

/-- `costs.py::compute_sheets_for_deliverable`.  The `_auto_find_price_obj`
database lookup is out of scope; the caller passes the already-resolved
price object (possibly `none`), exactly what the source's `price_obj`
variable holds after resolution.  `_to_decimal(None)` is `0`, hence the
`.getD 0` on unresolved dimensions. -/
def compute_sheets_for_deliverable (d : Deliverable) (p : Option PriceObj) :
    SheetsResult :=
  let final_w : Option ℚ := d.size.map (·.width_mm)
  let final_h : Option ℚ := d.size.map (·.height_mm)
  let sheet : Option SheetSize := resolve_production_sheet d p
  if is_booklet d then
    let total_pages := d.total_pages.getD 0
    if total_pages ≤ 0 then
      { qty := none, is_booklet := false, pages_per_physical_sheet := none,
        items_per_sheet := none, inner_sheets := 0, cover_sheets := 0,
        total_physical_sheets := 0, imposition := .empty,
        warnings := ["booklet detected but total_pages missing or zero"] }
    else
      let cover_separate := d.cover_separate.getD true
      let cover_size0 : Option SheetSize := p.bind (·.cover_size)
      let cover_size : Option SheetSize :=
        match d.cover_sheet_size with
        | some s => some s
        | none => cover_size0
      let imp := booklet_imposition total_pages (final_w.getD 0) (final_h.getD 0)
        ((sheet.map (·.width_mm)).getD 0) ((sheet.map (·.height_mm)).getD 0)
        (d.bleed_mm.getD 3) (d.gutter_mm.getD 5) (d.gripper_mm.getD 10)
        true (d.signature_multiple.getD 4) cover_separate
        (cover_size.map (·.width_mm)) (cover_size.map (·.height_mm))
        d.cover_bleed_mm d.cover_gutter_mm d.cover_gripper_mm
      let inner := (imp.inner_sheets.getD 0)
      let cover := (imp.cover_sheets.getD 0)
      let tps :=
        match imp.total_physical_sheets with
        | some t => if t ≠ 0 then t else inner + cover
        | none => inner + cover
      { qty := d.quantity, is_booklet := true,
        pages_per_physical_sheet := some imp.pages_per_physical_sheet,
        items_per_sheet := none, inner_sheets := inner, cover_sheets := cover,
        total_physical_sheets := tps, imposition := .booklet imp,
        warnings := [] }
  else
    match sheet with
    | none =>
      { qty := none, is_booklet := false, pages_per_physical_sheet := none,
        items_per_sheet := some 0, inner_sheets := 0, cover_sheets := 0,
        total_physical_sheets := 0, imposition := .empty,
        warnings := ["could not resolve production sheet size"] }
    | some s =>
      let items := items_per_sheet s.width_mm s.height_mm
        (final_w.getD 0) (final_h.getD 0)
        (d.bleed_mm.getD 3) (d.gutter_mm.getD 5) (d.gripper_mm.getD 10) true
      match d.quantity with
      | none =>
        { qty := none, is_booklet := false, pages_per_physical_sheet := none,
          items_per_sheet := some items, inner_sheets := 0, cover_sheets := 0,
          total_physical_sheets := 0, imposition := .flat items,
          warnings := [] }
      | some q =>
        let sheets := sheets_needed q items
        { qty := some q, is_booklet := false,
          pages_per_physical_sheet := none, items_per_sheet := some items,
          inner_sheets := sheets, cover_sheets := 0,
          total_physical_sheets := sheets, imposition := .flat items,
          warnings := [] }

/-- The dictionary returned by `compute_print_run_cost`. -/
structure RunCost where
  sheet_count : Int
  price_per_sheet : ℚ
  setup_cost : ℚ
  makeready_cost : ℚ
  waste_percent : ℚ
  waste_sheets : Int
  waste_cost : ℚ
  running_cost : ℚ
  finishing_cost : ℚ
  extras_cost : ℚ
  total_run_cost : ℚ
  warnings : List String
deriving Repr, DecidableEq

/-- `costs.py::compute_print_run_cost`.  `extras` is the (ordered) item
list of the `extras` dict; keys ending in `"_per_sheet"` scale by the sheet
count, all others are added flat. -/
def compute_print_run_cost (sheet_count : Int) (proxy : PriceProxy)
    (extras : List (String × ℚ)) : RunCost :=
  if sheet_count ≤ 0 then
    { sheet_count := 0, price_per_sheet := 0, setup_cost := 0,
      makeready_cost := 0, waste_percent := 0, waste_sheets := 0,
      waste_cost := 0, running_cost := 0, finishing_cost := 0,
      extras_cost := 0, total_run_cost := 0,
      warnings := ["zero sheet_count"] }
  else
    let pps0 := proxy.price_per_sheet
    let pps :=
      if pps0 = 0 ∧ proxy.rate_per_1000 > 0 then quantize4 (proxy.rate_per_1000 / 1000)
      else pps0
    let warnings : List String := if pps = 0 then ["price_per_sheet is zero"] else []
    let waste_sheets : Int :=
      if proxy.waste_percent > 0 then
        roundHalfUpInt ((sheet_count : ℚ) * (proxy.waste_percent / 100))
      else 0
    let waste_cost := quantize2 ((waste_sheets : ℚ) * pps)
    let running_cost := quantize2 ((sheet_count : ℚ) * pps)
    let finishing_cost := quantize2 ((sheet_count : ℚ) * proxy.finishing_cost_per_sheet)
    let extras_cost :=
      (extras.map (fun kv =>
        if kv.1.endsWith "_per_sheet" then (sheet_count : ℚ) * kv.2 else kv.2)).sum
    let total_run := quantize2 (running_cost + waste_cost + proxy.setup_cost +
      proxy.makeready_cost + finishing_cost + extras_cost)
    { sheet_count := sheet_count, price_per_sheet := quantize2 pps,
      setup_cost := quantize2he proxy.setup_cost,
      makeready_cost := quantize2he proxy.makeready_cost,
      waste_percent := proxy.waste_percent, waste_sheets := waste_sheets,
      waste_cost := waste_cost, running_cost := running_cost,
      finishing_cost := finishing_cost, extras_cost := quantize2he extras_cost,
      total_run_cost := total_run, warnings := warnings }

/-- The dictionary returned by `compute_total_cost` (the
`total_cost_formatted` string is presentation only and not modelled). -/
structure TotalCost where
  inner_sheets : Int
  cover_sheets : Int
  total_physical_sheets : Int
  imposition : ImpositionInfo
  runs_inner : RunCost
  runs_cover : Option RunCost
  total_cost : ℚ
  warnings : List String
deriving Repr, DecidableEq

/-- `cover_price_obj if cover_price_obj is not None else price_obj`
(`compute_total_cost` line 442). -/
def resolved_cover_price_obj (p cp : Option PriceObj) : Option PriceObj :=
  match cp with
  | some c => some c
  | none => p

/-- The unit-price-to-sheet-price conversion block of `compute_total_cost`
(source lines 449-457): when the proxy has no `price_per_sheet` but has a
`unit_price`, and the imposition dictionary yields a positive items-on-sheet
count (`pages_per_physical_sheet or items_per_sheet`, then the
`if ips and ips > 0` truthiness gate), the price per sheet becomes
`unit_price × items`, quantized. -/
def convert_unit_price (proxy : PriceProxy) (imp : ImpositionInfo) : PriceProxy :=
  if proxy.price_per_sheet = 0 ∧ proxy.unit_price.isSome then
    let items_on_sheet : Int :=
      match imp with
      | .booklet b => b.pages_per_physical_sheet
      | .flat items => items
      | .empty => 0
    if items_on_sheet > 0 then
      { proxy with
        price_per_sheet := quantize2 ((proxy.unit_price.getD 0) * items_on_sheet) }
    else proxy
  else proxy

/-- The cover-proxy mutation of `compute_total_cost` (source lines
464-465): a cover proxy without a price inherits the inner proxy's
positive price per sheet. -/
def cover_proxy_inherit (cover_proxy : PriceProxy) (pps : ℚ) : PriceProxy :=
  if cover_proxy.price_per_sheet = 0 ∧ pps > 0 then
    { cover_proxy with price_per_sheet := pps }
  else cover_proxy

/-- The inner run of `compute_total_cost` (source line 459). -/
def inner_run_of (d : Deliverable) (p : Option PriceObj)
    (extras : List (String × ℚ)) : RunCost :=
  compute_print_run_cost (compute_sheets_for_deliverable d p).inner_sheets
    (convert_unit_price (build_price_proxy d p)
      (compute_sheets_for_deliverable d p).imposition) extras

/-- The optional cover run of `compute_total_cost` (source lines 462-467). -/
def cover_run_of (d : Deliverable) (p cover_p : Option PriceObj)
    (extras : List (String × ℚ)) : Option RunCost :=
  if (compute_sheets_for_deliverable d p).cover_sheets > 0 then
    some (compute_print_run_cost (compute_sheets_for_deliverable d p).cover_sheets
      (cover_proxy_inherit (build_price_proxy d (resolved_cover_price_obj p cover_p))
        ((convert_unit_price (build_price_proxy d p)
          (compute_sheets_for_deliverable d p).imposition).price_per_sheet))
      extras)
  else none

/-- The cover run's contribution to the accumulated total (`0` when no
cover run happened). -/
def optRunTotal (r : Option RunCost) : ℚ :=
  match r with
  | some c => c.total_run_cost
  | none => 0

/-- The cover run's contribution to the accumulated warnings. -/
def optRunWarnings (r : Option RunCost) : List String :=
  match r with
  | some c => c.warnings
  | none => []

/-- `costs.py::compute_total_cost`, assembled from the named pieces above
(the source's local variables).  As in `compute_sheets_for_deliverable`,
the `_auto_find_price_obj` database lookup is out of scope: `p` is the
resolved price object (possibly `none`).  The in-place proxy mutations
become `convert_unit_price`/`cover_proxy_inherit`; the interpolated
minimum-charge warning keeps only its fixed prefix. -/
def compute_total_cost (d : Deliverable) (p : Option PriceObj)
    (cover_p : Option PriceObj) (extras : List (String × ℚ)) : TotalCost :=
  let sheets := compute_sheets_for_deliverable d p
  let inner_run := inner_run_of d p extras
  let cover_run := cover_run_of d p cover_p extras
  let warnings := inner_run.warnings ++ optRunWarnings cover_run
  let total0 := inner_run.total_run_cost + optRunTotal cover_run
  let min_charge := (convert_unit_price (build_price_proxy d p)
    sheets.imposition).minimum_charge
  let applyMin : Bool := decide (0 < min_charge) && decide (total0 < min_charge)
  let warnings2 := if applyMin then warnings ++ ["Applied minimum charge"] else warnings
  let total1 := if applyMin then min_charge else total0
  { inner_sheets := sheets.inner_sheets, cover_sheets := sheets.cover_sheets,
    total_physical_sheets := sheets.inner_sheets + sheets.cover_sheets,
    imposition := sheets.imposition, runs_inner := inner_run,
    runs_cover := cover_run, total_cost := quantize2 total1,
    warnings := warnings2 }

/-- The `total_cost = inner + cover` accumulation of `compute_total_cost`
(source lines 469-471), read back off a result. -/
def runsTotal (R : TotalCost) : ℚ :=
  R.runs_inner.total_run_cost + optRunTotal R.runs_cover

/-! ## Finishing cost calculator (`engine/services/finishing_costs.py`) -/

/-- The members that `machines.models.FinishingService.CalculationMethod`
actually declares (machines/models.py:61-65): `PER_SHEET_SINGLE`,
`PER_SHEET_DOUBLE`, `PER_ITEM`, `PER_SQ_METER`.  The five constants that
`finishing_costs.py` dispatches on (`PER_JOB`, `PER_SET`, `PER_COPY`,
`PER_SHEET`, `PER_SHEET_PER_SIDE`) are not among them, so the dispatch's
very first attribute access raises `AttributeError`. -/
inductive CalculationMethod where
  | per_sheet_single_sided : CalculationMethod
  | per_sheet_double_sided : CalculationMethod
  | per_item : CalculationMethod
  | per_sq_meter : CalculationMethod
deriving Repr, DecidableEq

/-- The pricing columns of `machines.models.FinishingService` read (or
intended to be read) around `compute_finishing_cost`: the calculation
method and the `minimum_charge` column (declared on the model, never
reachable by the function). -/
structure FinishingServiceRec where
  calculation_method : CalculationMethod
  minimum_charge : ℚ
deriving Repr, DecidableEq

/-- One row of `pricing.models.TieredFinishingPrice` as the repository
declares it (pricing/models.py:239-297): `min_quantity`, `max_quantity`,
`unit_price` and `setup_fee` — there is no `price` and no `currency`
column (which `compute_finishing_cost` would read), and its `service`
foreign key is declared against `Machine`, so the function's ORM filter
could not run as written either. -/
structure FinishingTier where
  min_quantity : Int
  max_quantity : Int
  unit_price : ℚ
  setup_fee : ℚ
deriving Repr, DecidableEq

/-- The `job_data` dict passed to `compute_finishing_cost`. -/
structure JobData where
  copy_count : Option Int
  set_count : Option Int
  sheet_count : Option Int
  side_count : Option Int
deriving Repr, DecidableEq

/-- The dictionary of `compute_finishing_cost`'s falsy-input early exit —
the only dictionary the function can ever return:
`{"total": Decimal("0.00"), "formatted": "KES 0.00",
"unit_price": Decimal("0.00")}`. -/
structure FinishingCost where
  total : ℚ
  formatted : String
  unit_price : ℚ
deriving Repr, DecidableEq

/-- `engine/services/finishing_costs.py::compute_finishing_cost`.  The
falsy-input guard (`if not service or not machine`) returns the zero-cost
dictionary before anything else runs.  Every other call dies on its first
comparison: `method == FinishingService.CalculationMethod.PER_JOB` reads an
enum member that the imported `machines.models.FinishingService` does not
declare, so Python raises `AttributeError` before any quantity is
resolved, any tier is queried (the query itself could not run:
`TieredFinishingPrice` has no `price`/`currency` columns and its `service`
key targets `Machine`), or any cost is returned.  Fallible code is
embedded with `Except`; the error value carries the exception.  `tiers`
(the catalog rows) and `jd` are accepted for signature fidelity but are
unreachable. -/
def compute_finishing_cost (service : Option FinishingServiceRec)
    (machine : Option Nat) (tiers : List FinishingTier) (jd : JobData) :
    Except String FinishingCost :=
  match service, machine with
  | some _, some _ =>
    .error "AttributeError: CalculationMethod has no attribute PER_JOB"
  | _, _ => .ok { total := 0, formatted := "KES 0.00", unit_price := 0 }

/-! ## General lemmas about the embedded primitives -/

theorem ratTrunc_eq_zero {q : ℚ} (h0 : 0 ≤ q) (h1 : q < 1) : ratTrunc q = 0 := by
  rw [ratTrunc, if_pos h0]
  apply Int.floor_eq_zero_iff.mpr
  rw [Set.mem_Ico]
  exact ⟨h0, h1⟩

theorem cdiv_nonneg {a b : Int} (ha : 0 ≤ a) (hb : 0 ≤ b) : 0 ≤ cdiv a b := by
  apply Int.ceil_nonneg
  apply div_nonneg
  · exact_mod_cast ha
  · exact_mod_cast hb

theorem one_le_cdiv {a b : Int} (ha : 0 < a) (hb : 0 < b) : 1 ≤ cdiv a b := by
  rw [cdiv]
  have h : (0:ℚ) < (a:ℚ) / (b:ℚ) :=
    div_pos (by exact_mod_cast ha) (by exact_mod_cast hb)
  have := Int.ceil_pos.mpr h
  omega

theorem cdiv_le_cdiv {a a' b : Int} (hb : 0 < b) (h : a ≤ a') :
    cdiv a b ≤ cdiv a' b := by
  apply Int.ceil_mono
  apply (div_le_div_right (c := (b:ℚ)) (by exact_mod_cast hb)).mpr
  exact_mod_cast h

/-- `cdiv` agrees with the usual integer ceiling-division formula for a
positive divisor. -/
theorem cdiv_eq_fdiv {a b : Int} (hb : 0 < b) : cdiv a b = (a + b - 1).fdiv b := by
  have hbQ : (0:ℚ) < (b:ℚ) := by exact_mod_cast hb
  rw [cdiv, Int.fdiv_eq_ediv _ (by omega)]
  have h1 : ((a + b - 1) / b) * b ≤ a + b - 1 :=
    (Int.le_ediv_iff_mul_le hb).mp (le_refl _)
  have h2 : a + b - 1 < ((a + b - 1) / b + 1) * b :=
    Int.lt_ediv_add_one_mul_self _ hb
  rw [Int.ceil_eq_iff]
  constructor
  · rw [lt_div_iff hbQ]
    have hx : ((a + b - 1) / b - 1) * b < a := by
      have hr : ((a + b - 1) / b - 1) * b = ((a + b - 1) / b) * b - b := by ring
      omega
    calc ((((a + b - 1) / b : Int) : ℚ) - 1) * (b:ℚ)
        = ((((a + b - 1) / b - 1 : Int) : ℚ)) * (b:ℚ) := by push_cast; ring
      _ < (a:ℚ) := by exact_mod_cast hx
  · rw [div_le_iff hbQ]
    have hx : a ≤ ((a + b - 1) / b) * b := by
      have hr : ((a + b - 1) / b + 1) * b = ((a + b - 1) / b) * b + b := by ring
      omega
    exact_mod_cast hx

/-- Åll three characterizing properties of `_round_up_to_multiple` for a
positive base: the result is a multiple, at least the input, and minimal
among such multiples. -/
theorem round_up_spec {v s : Int} (hs : 0 < s) :
    s ∣ round_up_to_multiple v s ∧ v ≤ round_up_to_multiple v s ∧
      ∀ m : Int, s ∣ m → v ≤ m → round_up_to_multiple v s ≤ m := by
  rw [round_up_to_multiple, if_neg (by omega), Int.fdiv_eq_ediv _ (by omega)]
  have h1 : ((v + s - 1) / s) * s ≤ v + s - 1 :=
    (Int.le_ediv_iff_mul_le hs).mp (le_refl _)
  have h2 : v + s - 1 < ((v + s - 1) / s + 1) * s :=
    Int.lt_ediv_add_one_mul_self _ hs
  have hr : ((v + s - 1) / s + 1) * s = ((v + s - 1) / s) * s + s := by ring
  refine ⟨dvd_mul_left s _, by omega, ?_⟩
  intro m hdvd hvm
  obtain ⟨k, hk⟩ := hdvd
  have hks : v + s - 1 < (k + 1) * s := by
    have : (k + 1) * s = k * s + s := by ring
    have : s * k = k * s := by ring
    omega
  have hqk : (v + s - 1) / s < k + 1 := (Int.ediv_lt_iff_lt_mul hs).mpr hks
  have hq : (v + s - 1) / s ≤ k := by omega
  calc ((v + s - 1) / s) * s ≤ k * s := mul_le_mul_of_nonneg_right hq (le_of_lt hs)
    _ = m := by rw [hk]; ring

/-- Rounding-up is monotone in the value. -/
theorem round_up_mono {v v' s : Int} (hs : 0 < s) (h : v ≤ v') :
    round_up_to_multiple v s ≤ round_up_to_multiple v' s := by
  obtain ⟨hd, hle, hmin⟩ := round_up_spec (v := v) hs
  obtain ⟨hd', hle', _⟩ := round_up_spec (v := v') hs
  exact hmin _ hd' (le_trans h hle')

/-- The page-rounding expression of the old engine's `booklet_imposition`
equals `_round_up_to_multiple` at base 4. -/
theorem old_round_eq (p : Int) :
    (if p % 4 ≠ 0 then p + (4 - p % 4) else p) = round_up_to_multiple p 4 := by
  have h4 : ¬ (4:Int) ≤ 0 := by omega
  rw [round_up_to_multiple, if_neg h4, Int.fdiv_eq_ediv _ (by omega)]
  by_cases h : p % 4 ≠ 0
  · rw [if_pos h]
    omega
  · rw [if_neg h]
    omega

/-- Quantizing a quantity that is already a whole number of cents is the
identity. -/
theorem quantize2_int_div (k : Int) : quantize2 ((k : ℚ) / 100) = (k : ℚ) / 100 := by
  rw [quantize2]
  have h : ((k:ℚ) / 100) * 100 = (k:ℚ) := by
    field_simp
  rw [h, roundHalfUpInt]
  by_cases hk : (0:ℚ) ≤ (k:ℚ)
  · rw [if_pos hk]
    have : ⌊(k:ℚ) + 1/2⌋ = k + ⌊(1/2 : ℚ)⌋ := Int.floor_int_add k (1/2)
    rw [this]
    norm_num
  · rw [if_neg hk]
    have h1 : -(k:ℚ) + 1/2 = ((-k : Int) : ℚ) + 1/2 := by push_cast; ring
    rw [h1, Int.floor_int_add]
    norm_num

theorem grid_count_nonneg (av_w av_h it_w it_h g : ℚ) :
    0 ≤ (grid_count av_w av_h it_w it_h g).count := by
  rw [grid_count]
  split
  · exact le_refl 0
  · exact mul_nonneg (le_max_right _ 0) (le_max_right _ 0)

theorem grid_count_zero_of_nonpos {av_w av_h it_w it_h g : ℚ}
    (h : it_w ≤ 0 ∨ it_h ≤ 0) : (grid_count av_w av_h it_w it_h g).count = 0 := by
  rw [grid_count, if_pos h]

/-- With a nonnegative gutter and positive available width, an item wider
than the available width yields zero columns, hence a zero count. -/
theorem grid_count_zero_of_wide {av_w av_h it_w it_h g : ℚ}
    (hg : 0 ≤ g) (hav : 0 < av_w) (h : av_w < it_w) :
    (grid_count av_w av_h it_w it_h g).count = 0 := by
  rw [grid_count]
  by_cases h0 : it_w ≤ 0 ∨ it_h ≤ 0
  · rw [if_pos h0]
  · rw [if_neg h0]
    push_neg at h0
    have hitw : 0 < it_w := h0.1
    have hden : 0 < it_w + g := by linarith
    have hnum : 0 ≤ av_w + g := by linarith
    have hq0 : 0 ≤ (av_w + g) / (it_w + g) := div_nonneg hnum (le_of_lt hden)
    have hq1 : (av_w + g) / (it_w + g) < 1 := by
      rw [div_lt_one hden]
      linarith
    simp only [ratTrunc_eq_zero hq0 hq1]
    simp

/-- Symmetrically for the height/rows factor. -/
theorem grid_count_zero_of_tall {av_w av_h it_w it_h g : ℚ}
    (hg : 0 ≤ g) (hav : 0 < av_h) (h : av_h < it_h) :
    (grid_count av_w av_h it_w it_h g).count = 0 := by
  rw [grid_count]
  by_cases h0 : it_w ≤ 0 ∨ it_h ≤ 0
  · rw [if_pos h0]
  · rw [if_neg h0]
    push_neg at h0
    have hith : 0 < it_h := h0.2
    have hden : 0 < it_h + g := by linarith
    have hnum : 0 ≤ av_h + g := by linarith
    have hq0 : 0 ≤ (av_h + g) / (it_h + g) := div_nonneg hnum (le_of_lt hden)
    have hq1 : (av_h + g) / (it_h + g) < 1 := by
      rw [div_lt_one hden]
      linarith
    simp only [ratTrunc_eq_zero hq0 hq1]
    simp

/-- `booklet_imposition` reports the signature rounding in
`pages_rounded` on both of its branches. -/
theorem booklet_pages_rounded_eq (tp : Int) (fw fh sw sh b g mar : ℚ)
    (dup : Bool) (sig : Int) (cs : Bool) (cw ch cb cg cm : Option ℚ) :
    (booklet_imposition tp fw fh sw sh b g mar dup sig cs cw ch cb cg cm).pages_rounded
      = round_up_to_multiple tp sig := by
  simp only [booklet_imposition]
  by_cases hc : items_per_sheet sw sh fw fh b g mar true *
      (if dup then 2 else 1) ≤ 0
  · rw [if_pos hc]
  · rw [if_neg hc]

/-- `booklet_imposition` reports the duplex-adjusted items-per-side count
in `pages_per_physical_sheet` on both of its branches. -/
theorem booklet_ppps_eq (tp : Int) (fw fh sw sh b g mar : ℚ)
    (dup : Bool) (sig : Int) (cs : Bool) (cw ch cb cg cm : Option ℚ) :
    (booklet_imposition tp fw fh sw sh b g mar dup sig cs cw ch cb cg cm).pages_per_physical_sheet
      = items_per_sheet sw sh fw fh b g mar true * (if dup then 2 else 1) := by
  simp only [booklet_imposition]
  by_cases hc : items_per_sheet sw sh fw fh b g mar true *
      (if dup then 2 else 1) ≤ 0
  · rw [if_pos hc]
  · rw [if_neg hc]

/-- The unit-price conversion never touches the proxy's minimum charge. -/
theorem convert_unit_price_minimum_charge (pr : PriceProxy)
    (imp : ImpositionInfo) :
    (convert_unit_price pr imp).minimum_charge = pr.minimum_charge := by
  simp only [convert_unit_price]
  split_ifs <;> rfl

/-! ## Claim theorems -/

/-- C6: for every quantity ≥ 0 and itemsPerSheet > 0, `sheets_needed` is
exact ceiling division (stated both against the rational ceiling and
against the integer `(q + n - 1) // n` form), `sheets_needed 0 n = 0` for
every `n`, and `sheets_needed 1000 24 = 42` (Scenario B). -/
theorem C6_sheets_needed_is_ceiling :
    (∀ q n : Int, 0 ≤ q → 0 < n →
      sheets_needed q n = ⌈(q:ℚ) / (n:ℚ)⌉ ∧
        sheets_needed q n = (q + n - 1).fdiv n) ∧
    (∀ n : Int, sheets_needed 0 n = 0) ∧
    sheets_needed 1000 24 = 42 := by
  refine ⟨?_, ?_, ?_⟩
  · intro q n hq hn
    by_cases h0 : q ≤ 0
    · have hq0 : q = 0 := le_antisymm h0 hq
      subst hq0
      constructor
      · rw [sheets_needed, if_pos (le_refl (0:Int))]
        norm_num
      · rw [sheets_needed, if_pos (le_refl (0:Int)),
          Int.fdiv_eq_ediv _ (by omega)]
        rw [Int.ediv_eq_zero_of_lt (by omega) (by omega)]
    · rw [sheets_needed, if_neg h0, if_neg (by omega)]
      exact ⟨rfl, cdiv_eq_fdiv hn⟩
  · intro n
    rw [sheets_needed, if_pos (le_refl (0:Int))]
  · norm_num [sheets_needed, cdiv, ceil_to_floor]

/-- Witness for C6 at Scenario B's numbers. -/
theorem C6_witness :
    sheets_needed 1000 24 = ⌈(1000:ℚ) / 24⌉ ∧
      sheets_needed 1000 24 = ((1000:Int) + 24 - 1).fdiv 24 :=
  C6_sheets_needed_is_ceiling.1 1000 24 (by norm_num) (by norm_num)

/-- C10: a non-positive quantity (including negative ones) always yields
zero sheets, whatever `items_per_sheet` is — the one-per-sheet fallback
never applies. -/
theorem C10_nonpositive_quantity_zero :
    ∀ q n : Int, q ≤ 0 → sheets_needed q n = 0 := by
  intro q n h
  rw [sheets_needed, if_pos h]

/-- Witness for C10: a negative quantity with a degenerate
items-per-sheet, and the zero quantity. -/
theorem C10_witness : sheets_needed (-5) (-3) = 0 ∧ sheets_needed 0 7 = 0 :=
  ⟨C10_nonpositive_quantity_zero _ _ (by norm_num),
   C10_nonpositive_quantity_zero _ _ (le_refl 0)⟩

/-- C9: `_round_up_to_multiple` returns the smallest multiple of a positive
signature `s` that is ≥ the page count (a multiple maps to itself by
minimality); the new engine's `booklet_imposition` reports exactly that
rounding in `pages_rounded`; and the old engine's
`bookletSheets(quantity, pages)` is monotone in `pages` for a fixed
non-negative quantity. -/
theorem C9_signature_rounding_monotone :
    (∀ v s : Int, 0 < s →
      s ∣ round_up_to_multiple v s ∧ v ≤ round_up_to_multiple v s ∧
        ∀ m : Int, s ∣ m → v ≤ m → round_up_to_multiple v s ≤ m) ∧
    (∀ tp : Int, ∀ fw fh sw sh b g mar : ℚ, ∀ dup : Bool, ∀ sig : Int,
      ∀ cs : Bool, ∀ cw ch cb cg cm : Option ℚ,
      (booklet_imposition tp fw fh sw sh b g mar dup sig cs cw ch cb cg cm).pages_rounded
        = round_up_to_multiple tp sig) ∧
    (∀ q p p' : Int, 0 ≤ q → p ≤ p' →
      OldEngine.booklet_imposition q p ≤ OldEngine.booklet_imposition q p') := by
  refine ⟨fun v s hs => round_up_spec hs, ?_, ?_⟩
  · intro tp fw fh sw sh b g mar dup sig cs cw ch cb cg cm
    exact booklet_pages_rounded_eq tp fw fh sw sh b g mar dup sig cs cw ch cb cg cm
  · intro q p p' hq hpp
    simp only [OldEngine.booklet_imposition, old_round_eq]
    have hrr : round_up_to_multiple p 4 ≤ round_up_to_multiple p' 4 :=
      round_up_mono (by norm_num) hpp
    by_cases h1 : round_up_to_multiple p 4 ≤ 4
    · by_cases h2 : round_up_to_multiple p' 4 ≤ 4
      · rw [if_pos h1, if_pos h2]
      · rw [if_pos h1, if_neg h2]
        have hc : 1 ≤ cdiv (round_up_to_multiple p' 4 - 4) 4 :=
          one_le_cdiv (by omega) (by norm_num)
        exact le_mul_of_one_le_right hq hc
    · have h2 : ¬ round_up_to_multiple p' 4 ≤ 4 := by omega
      rw [if_neg h1, if_neg h2]
      exact mul_le_mul_of_nonneg_left
        (cdiv_le_cdiv (by norm_num) (by omega)) hq

/-- Witness for C9: signature 4 at 30 pages rounds to 32 (a multiple, at
least 30), and the old engine's sheet count is monotone from 20 to 30
pages at 7 copies. -/
theorem C9_witness :
    (4:Int) ∣ round_up_to_multiple 30 4 ∧ (30:Int) ≤ round_up_to_multiple 30 4 ∧
      round_up_to_multiple 30 4 ≤ 32 ∧
      OldEngine.booklet_imposition 7 20 ≤ OldEngine.booklet_imposition 7 30 := by
  have h := C9_signature_rounding_monotone
  refine ⟨(h.1 30 4 (by norm_num)).1, (h.1 30 4 (by norm_num)).2.1, ?_, ?_⟩
  · exact (h.1 30 4 (by norm_num)).2.2 32 (by norm_num) (by norm_num)
  · exact h.2.2 7 20 30 (by norm_num) (by norm_num)

/-- C7 (amended): `items_layout` never returns a negative count; a
non-positive available width/height gives count 0; a non-positive
effective item dimension gives count 0; and — provided the gutter is
non-negative — an effective item that exceeds the usable area in both
orientations gives count 0. -/
theorem C7_items_layout_zero_guards :
    ∀ sw sh iw ih b g mar : ℚ, ∀ rot : Bool,
      (0 ≤ (items_layout sw sh iw ih b g mar rot).count) ∧
      (sw - mar * 2 ≤ 0 ∨ sh - mar * 2 ≤ 0 →
        (items_layout sw sh iw ih b g mar rot).count = 0) ∧
      (iw + b * 2 ≤ 0 ∨ ih + b * 2 ≤ 0 →
        (items_layout sw sh iw ih b g mar rot).count = 0) ∧
      (0 ≤ g →
        (sw - mar * 2 < iw + b * 2 ∨ sh - mar * 2 < ih + b * 2) →
        (sw - mar * 2 < ih + b * 2 ∨ sh - mar * 2 < iw + b * 2) →
        (items_layout sw sh iw ih b g mar rot).count = 0) := by
  intro sw sh iw ih b g mar rot
  refine ⟨?_, ?_, ?_, ?_⟩
  · simp only [items_layout]
    split_ifs
    · exact le_refl 0
    · exact grid_count_nonneg _ _ _ _ _
    · exact grid_count_nonneg _ _ _ _ _
    · exact grid_count_nonneg _ _ _ _ _
  · intro h
    simp only [items_layout]
    rw [if_pos h]
  · intro h
    simp only [items_layout]
    split_ifs
    · rfl
    · exact grid_count_zero_of_nonpos h.symm
    · exact grid_count_zero_of_nonpos h
    · exact grid_count_zero_of_nonpos h
  · intro hg h1 h2
    by_cases hav : sw - mar * 2 ≤ 0 ∨ sh - mar * 2 ≤ 0
    · simp only [items_layout]
      rw [if_pos hav]
    · push_neg at hav
      have hg1 : (grid_count (sw - mar * 2) (sh - mar * 2)
          (iw + b * 2) (ih + b * 2) g).count = 0 := by
        rcases h1 with h | h
        · exact grid_count_zero_of_wide hg hav.1 h
        · exact grid_count_zero_of_tall hg hav.2 h
      have hg2 : (grid_count (sw - mar * 2) (sh - mar * 2)
          (ih + b * 2) (iw + b * 2) g).count = 0 := by
        rcases h2 with h | h
        · exact grid_count_zero_of_wide hg hav.1 h
        · exact grid_count_zero_of_tall hg hav.2 h
      simp only [items_layout]
      rw [if_neg (by push_neg; exact hav)]
      split_ifs
      · exact hg2
      · exact hg1
      · exact hg1

/-- Counterexample to C7 as stated: with a negative gutter (−10) a 2×2
effective item "fits" a 1×1 usable area — the effective dimensions exceed
the available ones on both axes (hence in both orientations, the item
being square), yet the count is 1, not 0. -/
theorem C7_counterexample :
    (items_layout 1 1 2 2 0 (-10) 0 true).count = 1 ∧
      (items_layout 1 1 2 2 0 (-10) 0 true).available_w_mm <
        (items_layout 1 1 2 2 0 (-10) 0 true).effective_item_w_mm ∧
      (items_layout 1 1 2 2 0 (-10) 0 true).available_h_mm <
        (items_layout 1 1 2 2 0 (-10) 0 true).effective_item_h_mm := by
  refine ⟨?_, ?_, ?_⟩ <;> norm_num [items_layout, grid_count, ratTrunc]

/-- Witness for C7 at an input satisfying all three zero-count guards
(non-positive usable area, non-positive effective item, and
both-orientation overflow with non-negative gutter). -/
theorem C7_witness : (items_layout 1 1 (-10) (-10) 0 5 10 true).count = 0 := by
  exact (C7_items_layout_zero_guards 1 1 (-10) (-10) 0 5 10 true).2.2.1
    (by norm_num)

/-- C8: allowing rotation never lowers the count, and when the rotated
grid is no better than the unrotated one the unrotated result is kept
(`rotated = false`). -/
theorem C8_rotation_monotone_ties_unrotated :
    ∀ sw sh iw ih b g mar : ℚ,
      ((items_layout sw sh iw ih b g mar false).count ≤
        (items_layout sw sh iw ih b g mar true).count) ∧
      ((grid_count (sw - mar * 2) (sh - mar * 2) (ih + b * 2) (iw + b * 2) g).count ≤
        (grid_count (sw - mar * 2) (sh - mar * 2) (iw + b * 2) (ih + b * 2) g).count →
        (items_layout sw sh iw ih b g mar true).rotated = false) := by
  intro sw sh iw ih b g mar
  constructor
  · simp only [items_layout, Bool.false_eq_true, eq_self_iff_true, if_true, if_false]
    by_cases h1 : sw - mar * 2 ≤ 0 ∨ sh - mar * 2 ≤ 0
    · rw [if_pos h1, if_pos h1]
    · rw [if_neg h1, if_neg h1]
      by_cases h2 : (grid_count (sw - mar * 2) (sh - mar * 2)
          (ih + b * 2) (iw + b * 2) g).count >
        (grid_count (sw - mar * 2) (sh - mar * 2) (iw + b * 2) (ih + b * 2) g).count
      · rw [if_pos h2]
        exact le_of_lt h2
      · rw [if_neg h2]
  · intro hle
    simp only [items_layout, Bool.false_eq_true, eq_self_iff_true, if_true, if_false]
    by_cases h1 : sw - mar * 2 ≤ 0 ∨ sh - mar * 2 ≤ 0
    · rw [if_pos h1]
    · rw [if_neg h1, if_neg (not_lt.mpr hle)]

/-- Witness for C8's tie case: a square 90×90 item ties under rotation and
the unrotated orientation is kept. -/
theorem C8_witness : (items_layout 450 320 90 90 3 5 10 true).rotated = false := by
  exact (C8_rotation_monotone_ties_unrotated 450 320 90 90 3 5 10).2 (le_refl _)

/-- C1 (amended): the current engine's booklet imposition computes ONE
shared inner run — whenever the rounded page count exceeds 4 and the page
fits (positive pages-per-physical-sheet), the inner sheet count with a
separate cover is `ceil((roundedPages − 4) / pagesPerPhysicalSheet)` with
no multiplication by a copy count (the function receives none); it is the
old engine's `booklet_imposition(quantity, page_count)` that multiplies
the per-copy signature sheets by the quantity, with pagesPerPhysicalSheet
fixed at 4. -/
theorem C1_inner_sheets_one_shared_run :
    (∀ tp : Int, ∀ fw fh sw sh b g mar : ℚ, ∀ dup : Bool, ∀ sig : Int,
      ∀ cw ch cb cg cm : Option ℚ,
      4 < (booklet_imposition tp fw fh sw sh b g mar dup sig true
        cw ch cb cg cm).pages_rounded →
      0 < (booklet_imposition tp fw fh sw sh b g mar dup sig true
        cw ch cb cg cm).pages_per_physical_sheet →
      (booklet_imposition tp fw fh sw sh b g mar dup sig true
        cw ch cb cg cm).inner_sheets =
        some (cdiv
          ((booklet_imposition tp fw fh sw sh b g mar dup sig true
            cw ch cb cg cm).pages_rounded - 4)
          ((booklet_imposition tp fw fh sw sh b g mar dup sig true
            cw ch cb cg cm).pages_per_physical_sheet))) ∧
    (∀ q p : Int, 4 < round_up_to_multiple p 4 →
      OldEngine.booklet_imposition q p =
        q * cdiv (round_up_to_multiple p 4 - 4) 4) := by
  constructor
  · intro tp fw fh sw sh b g mar dup sig cw ch cb cg cm h1 h2
    rw [booklet_pages_rounded_eq] at h1
    rw [booklet_ppps_eq] at h2
    rw [booklet_pages_rounded_eq, booklet_ppps_eq]
    simp only [booklet_imposition]
    rw [if_neg (by omega : ¬ items_per_sheet sw sh fw fh b g mar true *
      (if dup then 2 else 1) ≤ 0)]
    simp only [eq_self_iff_true, if_true]
    rw [if_neg (by omega : ¬ round_up_to_multiple tp sig - 4 < 0)]
    rw [if_pos (by omega : round_up_to_multiple tp sig - 4 > 0)]
  · intro q p h
    simp only [OldEngine.booklet_imposition, old_round_eq]
    rw [if_neg (by omega)]

/-- Counterexample to C1 as stated: a 30-page booklet (Scenario C
geometry: A4 pages, 4-up duplex, pagesPerPhysicalSheet 8) yields inner
sheets 4 = ceil(28/8); for 2 requested copies the claim predicts
ceil(28/8) × 2 = 8, but the booklet imposition takes no copy count and
returns 4. -/
theorem C1_counterexample :
    (booklet_imposition 30 210 297 650 480 3 5 10 true 4 true
      none none none none none).inner_sheets = some 4 ∧
      ¬ ((4:Int) = cdiv (32 - 4) 8 * 2) := by
  constructor
  · norm_num [booklet_imposition, items_per_sheet, items_layout, grid_count,
      ratTrunc, round_up_to_multiple, cdiv, ceil_to_floor, optTruthy,
      Int.fdiv_eq_ediv]
  · norm_num [cdiv, ceil_to_floor]

/-- Witness for C1 at Scenario C's booklet and at the old engine with 7
copies of a 30-page booklet. -/
theorem C1_witness :
    (booklet_imposition 30 210 297 650 480 3 5 10 true 4 true
        none none none none none).inner_sheets =
      some (cdiv
        ((booklet_imposition 30 210 297 650 480 3 5 10 true 4 true
          none none none none none).pages_rounded - 4)
        ((booklet_imposition 30 210 297 650 480 3 5 10 true 4 true
          none none none none none).pages_per_physical_sheet)) ∧
      OldEngine.booklet_imposition 7 30 =
        7 * cdiv (round_up_to_multiple 30 4 - 4) 4 := by
  constructor
  · exact C1_inner_sheets_one_shared_run.1 30 210 297 650 480 3 5 10 true 4
      none none none none none
      (by rw [booklet_pages_rounded_eq]; decide)
      (by rw [booklet_ppps_eq]
          norm_num [items_per_sheet, items_layout, grid_count, ratTrunc])
  · exact C1_inner_sheets_one_shared_run.2 7 30 (by decide)

/-- C4 (amended): for a positive quantity and non-positive items-per-sheet,
`sheets_needed` returns exactly the quantity (no division-by-zero); but the
calling layer attaches NO warning when this fallback fires —
`compute_sheets_for_deliverable` returns an empty warning list on every
branch that reaches `sheets_needed` (its warnings only flag an unresolved
sheet size or missing booklet pages). -/
theorem C4_fallback_is_quantity_but_unwarned :
    (∀ q n : Int, 0 < q → n ≤ 0 → sheets_needed q n = q) ∧
    (∀ d : Deliverable, ∀ p : Option PriceObj, ∀ i : Int,
      (compute_sheets_for_deliverable d p).items_per_sheet = some i → i ≤ 0 →
      0 < (compute_sheets_for_deliverable d p).inner_sheets →
      (compute_sheets_for_deliverable d p).warnings = []) := by
  constructor
  · intro q n hq hn
    rw [sheets_needed, if_neg (by omega), if_pos hn]
  · intro d p i hi hile hpos
    simp only [compute_sheets_for_deliverable] at hi hpos ⊢
    by_cases hb : is_booklet d = true
    · rw [if_pos hb] at hi hpos ⊢
      by_cases htp : d.total_pages.getD 0 ≤ 0
      · rw [if_pos htp] at hi
        simp at hi
      · rw [if_neg htp] at hi
        simp at hi
    · rw [if_neg hb] at hi hpos ⊢
      revert hi hpos
      cases hs : resolve_production_sheet d p with
      | none =>
        intro hi hpos
        simp at hpos
      | some s =>
        cases hq : d.quantity with
        | none =>
          intro hi hpos
          simp at hpos
        | some q =>
          intro hi hpos
          rfl

/-- A flat deliverable whose 500×400 item cannot fit the 450×320
production sheet: items-per-sheet resolves to 0. -/
def flatTooBig : Deliverable :=
  { emptyDeliverable with
    quantity := some 5, size := some ⟨"poster", 500, 400⟩,
    inner_material := some ⟨some ⟨"SRA2ish", 450, 320⟩⟩ }

/-- Counterexample to C4 as stated: the fallback fires (items-per-sheet 0,
quantity 5 → 5 sheets, one per item) yet the caller layer attaches no
warning at all. -/
theorem C4_counterexample :
    (compute_sheets_for_deliverable flatTooBig none).items_per_sheet = some 0 ∧
      (compute_sheets_for_deliverable flatTooBig none).inner_sheets = 5 ∧
      (compute_sheets_for_deliverable flatTooBig none).warnings = [] := by
  refine ⟨?_, ?_, ?_⟩ <;>
  norm_num [compute_sheets_for_deliverable, resolve_production_sheet,
    flatTooBig, emptyDeliverable, is_booklet, items_per_sheet, items_layout,
    grid_count, ratTrunc, sheets_needed, cdiv, ceil_to_floor]

/-- Witness for C4: the fallback value at `(5, 0)` and the empty warning
list at the concrete deliverable above. -/
theorem C4_witness :
    sheets_needed 5 0 = 5 ∧
      (compute_sheets_for_deliverable flatTooBig none).warnings = [] := by
  constructor
  · exact C4_fallback_is_quantity_but_unwarned.1 5 0 (by norm_num) (le_refl 0)
  · exact C4_fallback_is_quantity_but_unwarned.2 flatTooBig none 0
      (by norm_num [compute_sheets_for_deliverable, resolve_production_sheet,
        flatTooBig, emptyDeliverable, is_booklet, items_per_sheet, items_layout,
        grid_count, ratTrunc])
      (le_refl 0)
      (by norm_num [compute_sheets_for_deliverable, resolve_production_sheet,
        flatTooBig, emptyDeliverable, is_booklet, items_per_sheet, items_layout,
        grid_count, ratTrunc, sheets_needed, cdiv, ceil_to_floor])

/-- C5 (amended): the price proxy picks the double-sided price when the
resolved sidedness is double, falls back to the other sidedness's price
when the selected one is absent or zero (and symmetrically for single) —
but silently: no warning is recorded anywhere for the fallback; booklets
default to double-sided when no sidedness is given. -/
theorem C5_sidedness_selection_and_fallback :
    ∀ d : Deliverable, ∀ p : Option PriceObj,
      (nzOpt (proxy_vals d p).price_per_sheet = none →
        get_sheet_sidedness d = "double" →
        ∀ x, nzOpt (proxy_vals d p).double_side_price = some x →
          (build_price_proxy d p).price_per_sheet = x) ∧
      (nzOpt (proxy_vals d p).price_per_sheet = none →
        get_sheet_sidedness d = "double" →
        nzOpt (proxy_vals d p).double_side_price = none →
        ∀ y, nzOpt (proxy_vals d p).single_side_price = some y →
          (build_price_proxy d p).price_per_sheet = y) ∧
      (nzOpt (proxy_vals d p).price_per_sheet = none →
        get_sheet_sidedness d = "single" →
        ∀ y, nzOpt (proxy_vals d p).single_side_price = some y →
          (build_price_proxy d p).price_per_sheet = y) ∧
      (nzOpt (proxy_vals d p).price_per_sheet = none →
        get_sheet_sidedness d = "single" →
        nzOpt (proxy_vals d p).single_side_price = none →
        ∀ x, nzOpt (proxy_vals d p).double_side_price = some x →
          (build_price_proxy d p).price_per_sheet = x) ∧
      (d.duplex = none → strTruthy d.inner_sidedness = false →
        strTruthy d.sidedness = false → is_booklet d = true →
        get_sheet_sidedness d = "double") := by
  intro d p
  refine ⟨?_, ?_, ?_, ?_, ?_⟩
  · intro hp hs x hd
    simp only [build_price_proxy, select_base_pps, hp, hs, hd,
      eq_self_iff_true, if_true]
    rfl
  · intro hp hs hd y hsi
    simp only [build_price_proxy, select_base_pps, hp, hs, hd, hsi,
      eq_self_iff_true, if_true]
    rfl
  · intro hp hs y hsi
    simp only [build_price_proxy, select_base_pps, hp, hs, hsi]
    rw [if_neg (by decide : ¬ ("single" : String) = "double")]
    rfl
  · intro hp hs hsi x hd
    simp only [build_price_proxy, select_base_pps, hp, hs, hsi, hd]
    rw [if_neg (by decide : ¬ ("single" : String) = "double")]
    rfl
  · intro hdup hin hsid hbk
    simp only [get_sheet_sidedness, hdup, hin, hsid, hbk, if_false, if_true,
      Bool.false_eq_true]

/-- A flat duplex deliverable (1000 business cards on a 450×320 sheet). -/
def duplexCard : Deliverable :=
  { emptyDeliverable with
    quantity := some 1000, size := some ⟨"card", 90, 50⟩,
    inner_material := some ⟨some ⟨"SRA2ish", 450, 320⟩⟩,
    duplex := some true }

/-- A price row with only a single-sided price (double-sided price 0). -/
def onlySinglePrice : PriceObj :=
  ⟨none, some 5, some 0, none, none, none, none, none, none, none, none,
   some "KES", none, none⟩

/-- Counterexample to C5 as stated: double-sided is requested, the
double-sided price is zero, the proxy falls back to the single-sided
price 5 — and the full costing result carries NO warning about it (its
warning list is empty). -/
theorem C5_counterexample :
    get_sheet_sidedness duplexCard = "double" ∧
      (proxy_vals duplexCard (some onlySinglePrice)).double_side_price = some 0 ∧
      (build_price_proxy duplexCard (some onlySinglePrice)).price_per_sheet = 5 ∧
      (compute_total_cost duplexCard (some onlySinglePrice) none []).warnings = [] := by
  refine ⟨?_, ?_, ?_, ?_⟩
  · norm_num [get_sheet_sidedness, duplexCard, emptyDeliverable]
  · norm_num [proxy_vals, mergeKey, duplexCard, onlySinglePrice, emptyDeliverable]
  · norm_num [build_price_proxy, proxy_vals, mergeKey, mergeKeyStr, nzOpt,
      select_base_pps, get_sheet_sidedness, duplexCard, onlySinglePrice,
      emptyDeliverable]
  · norm_num [compute_total_cost, inner_run_of, cover_run_of, convert_unit_price,
      cover_proxy_inherit, resolved_cover_price_obj, optRunTotal, optRunWarnings,
      compute_sheets_for_deliverable, resolve_production_sheet, duplexCard,
      onlySinglePrice, emptyDeliverable, is_booklet, items_per_sheet,
      items_layout, grid_count, ratTrunc, sheets_needed, cdiv, ceil_to_floor,
      build_price_proxy, proxy_vals, mergeKey, mergeKeyStr, nzOpt,
      select_base_pps, get_sheet_sidedness, compute_print_run_cost, quantize2,
      quantize2he, quantize4, roundHalfUpInt, roundHalfEvenInt, strTruthy]

/-- Witness for C5: the double→single fallback at the records above, and
the booklet double-sided default at a bare saddle-stitched deliverable. -/
theorem C5_witness :
    (build_price_proxy duplexCard (some onlySinglePrice)).price_per_sheet = 5 ∧
      get_sheet_sidedness { emptyDeliverable with saddle_stitched := true } = "double" := by
  constructor
  · exact (C5_sidedness_selection_and_fallback duplexCard
      (some onlySinglePrice)).2.1
      (by norm_num [proxy_vals, mergeKey, nzOpt, duplexCard, onlySinglePrice,
        emptyDeliverable])
      (by norm_num [get_sheet_sidedness, duplexCard, emptyDeliverable])
      (by norm_num [proxy_vals, mergeKey, nzOpt, duplexCard, onlySinglePrice,
        emptyDeliverable])
      5
      (by norm_num [proxy_vals, mergeKey, nzOpt, duplexCard, onlySinglePrice,
        emptyDeliverable])
  · exact (C5_sidedness_selection_and_fallback
      { emptyDeliverable with saddle_stitched := true } none).2.2.2.2
      (by norm_num [emptyDeliverable]) (by norm_num [strTruthy, emptyDeliverable])
      (by norm_num [strTruthy, emptyDeliverable])
      (by norm_num [is_booklet, emptyDeliverable])

/-- C2 (amended): the minimum charge is compared against the FULL
accumulated run total (running + waste + setup + makeready + finishing +
extras, inner plus cover), not against the bare running cost: whenever
that accumulated total is strictly below a positive minimum charge `m`,
the deliverable total equals `m` quantized to two decimals (hence `m`
exactly whenever `m` is a whole number of cents). -/
theorem C2_minimum_charge_floor :
    ∀ d : Deliverable, ∀ p cp : Option PriceObj, ∀ ex : List (String × ℚ),
      0 < (build_price_proxy d p).minimum_charge →
      runsTotal (compute_total_cost d p cp ex) <
        (build_price_proxy d p).minimum_charge →
      (compute_total_cost d p cp ex).total_cost =
        quantize2 ((build_price_proxy d p).minimum_charge) ∧
      ∀ k : Int, (build_price_proxy d p).minimum_charge = (k : ℚ) / 100 →
        (compute_total_cost d p cp ex).total_cost =
          (build_price_proxy d p).minimum_charge := by
  intro d p cp ex h1 h2
  have hrt : runsTotal (compute_total_cost d p cp ex) =
      (inner_run_of d p ex).total_run_cost +
        optRunTotal (cover_run_of d p cp ex) := rfl
  rw [hrt] at h2
  have hmc := convert_unit_price_minimum_charge (build_price_proxy d p)
    (compute_sheets_for_deliverable d p).imposition
  have key : (compute_total_cost d p cp ex).total_cost =
      quantize2 ((build_price_proxy d p).minimum_charge) := by
    have hcond : (decide (0 < (convert_unit_price (build_price_proxy d p)
        (compute_sheets_for_deliverable d p).imposition).minimum_charge) &&
        decide ((inner_run_of d p ex).total_run_cost +
          optRunTotal (cover_run_of d p cp ex) <
          (convert_unit_price (build_price_proxy d p)
            (compute_sheets_for_deliverable d p).imposition).minimum_charge))
        = true := by
      rw [hmc]
      simp only [Bool.and_eq_true, decide_eq_true_eq]
      exact ⟨h1, h2⟩
    simp only [compute_total_cost]
    rw [hcond]
    simp only [eq_self_iff_true, if_true]
    rw [hmc]
  refine ⟨key, ?_⟩
  intro k hk
  rw [key, hk]
  exact quantize2_int_div k

/-- A deliverable priced at 5 per sheet with a 100 setup cost and a
minimum charge of 120: 1 production sheet, running cost 5, run total
105. -/
def minChargeJob : Deliverable :=
  { emptyDeliverable with
    quantity := some 2, size := some ⟨"flyer", 200, 150⟩,
    inner_material := some ⟨some ⟨"SRA2ish", 450, 320⟩⟩,
    price_per_sheet := some 5, setup_cost := some 100,
    minimum_charge := some 120 }

/-- The same deliverable with a minimum charge of 50. -/
def minChargeJobLow : Deliverable :=
  { minChargeJob with minimum_charge := some 50 }

/-- Counterexample to C2 as stated: running cost 5 is strictly below the
minimum charge 50, yet the setup cost pushes the run total to 105 ≥ 50, so
no minimum is applied and the section total is 105, not 50. -/
theorem C2_counterexample :
    (compute_total_cost minChargeJobLow none none []).runs_inner.running_cost = 5 ∧
      (build_price_proxy minChargeJobLow none).minimum_charge = 50 ∧
      ((5:ℚ) < 50) ∧
      (compute_total_cost minChargeJobLow none none []).total_cost = 105 ∧
      ¬ ((compute_total_cost minChargeJobLow none none []).total_cost = 50) := by
  have h105 : (compute_total_cost minChargeJobLow none none []).total_cost = 105 := by
    norm_num [compute_total_cost, inner_run_of, cover_run_of, convert_unit_price,
      cover_proxy_inherit, resolved_cover_price_obj, optRunTotal, optRunWarnings,
      compute_sheets_for_deliverable, resolve_production_sheet, minChargeJobLow,
      minChargeJob, emptyDeliverable, is_booklet, items_per_sheet, items_layout,
      grid_count, ratTrunc, sheets_needed, cdiv, ceil_to_floor,
      build_price_proxy, proxy_vals, mergeKey, mergeKeyStr, nzOpt,
      select_base_pps, get_sheet_sidedness, compute_print_run_cost, quantize2,
      quantize2he, quantize4, roundHalfUpInt, roundHalfEvenInt, strTruthy]
  refine ⟨?_, ?_, by norm_num, h105, by rw [h105]; norm_num⟩
  · norm_num [compute_total_cost, inner_run_of, cover_run_of, convert_unit_price,
      cover_proxy_inherit, resolved_cover_price_obj, optRunTotal, optRunWarnings,
      compute_sheets_for_deliverable, resolve_production_sheet, minChargeJobLow,
      minChargeJob, emptyDeliverable, is_booklet, items_per_sheet, items_layout,
      grid_count, ratTrunc, sheets_needed, cdiv, ceil_to_floor,
      build_price_proxy, proxy_vals, mergeKey, mergeKeyStr, nzOpt,
      select_base_pps, get_sheet_sidedness, compute_print_run_cost, quantize2,
      quantize2he, quantize4, roundHalfUpInt, roundHalfEvenInt, strTruthy]
  · norm_num [build_price_proxy, proxy_vals, mergeKey, mergeKeyStr, nzOpt,
      select_base_pps, get_sheet_sidedness, minChargeJobLow, minChargeJob,
      emptyDeliverable, strTruthy]

/-- Witness for C2: with minimum charge 120 and run total 105 < 120 the
deliverable total is exactly 120. -/
theorem C2_witness :
    (compute_total_cost minChargeJob none none []).total_cost = 120 := by
  have hm : (build_price_proxy minChargeJob none).minimum_charge = 120 := by
    norm_num [build_price_proxy, proxy_vals, mergeKey, mergeKeyStr, nzOpt,
      select_base_pps, get_sheet_sidedness, minChargeJob, emptyDeliverable,
      strTruthy]
  have hrun : runsTotal (compute_total_cost minChargeJob none none []) = 105 := by
    norm_num [runsTotal, optRunTotal, compute_total_cost, inner_run_of,
      cover_run_of, convert_unit_price, cover_proxy_inherit,
      resolved_cover_price_obj, optRunWarnings,
      compute_sheets_for_deliverable, resolve_production_sheet, minChargeJob,
      emptyDeliverable, is_booklet, items_per_sheet, items_layout, grid_count,
      ratTrunc, sheets_needed, cdiv, ceil_to_floor, build_price_proxy,
      proxy_vals, mergeKey, mergeKeyStr, nzOpt, select_base_pps,
      get_sheet_sidedness, compute_print_run_cost, quantize2, quantize2he,
      quantize4, roundHalfUpInt, roundHalfEvenInt, strTruthy]
  have h := C2_minimum_charge_floor minChargeJob none none []
    (by rw [hm]; norm_num) (by rw [hrun, hm]; norm_num)
  have h2 := h.2 12000 (by rw [hm]; norm_num)
  rw [hm] at h2
  exact h2

/-- C3 (amended): `compute_finishing_cost` can never perform the claimed
computation.  For every present (truthy) service and machine it raises
`AttributeError` — the dispatch constants `PER_JOB`/`PER_SET`/`PER_COPY`/
`PER_SHEET`/`PER_SHEET_PER_SIDE` do not exist on the imported
`FinishingService.CalculationMethod`, whatever calculation method the
service carries — so no quantity is resolved, no tier is selected, no
warning is emitted and no minimum charge is applied; only the falsy-input
guard returns, with the zero-cost dictionary. -/
theorem C3_finishing_cost_always_raises :
    (∀ svc : FinishingServiceRec, ∀ mach : Nat, ∀ tiers : List FinishingTier,
      ∀ jd : JobData,
      compute_finishing_cost (some svc) (some mach) tiers jd =
        .error "AttributeError: CalculationMethod has no attribute PER_JOB") ∧
    (∀ mach : Option Nat, ∀ tiers : List FinishingTier, ∀ jd : JobData,
      compute_finishing_cost none mach tiers jd =
        .ok { total := 0, formatted := "KES 0.00", unit_price := 0 }) ∧
    (∀ svc : Option FinishingServiceRec, ∀ tiers : List FinishingTier,
      ∀ jd : JobData,
      compute_finishing_cost svc none tiers jd =
        .ok { total := 0, formatted := "KES 0.00", unit_price := 0 }) := by
  refine ⟨fun svc mach tiers jd => rfl, fun mach tiers jd => ?_,
    fun svc tiers jd => ?_⟩
  · cases mach with
    | none => rfl
    | some m => rfl
  · cases svc with
    | none => rfl
    | some sv => rfl

/-- Counterexample to C3 as stated: at a concrete present service (with
one of the enum's real members, `PER_ITEM`, and `minimum_charge = 100`), a
machine, a tier row and a 10-copy job context, the function raises
`AttributeError` instead of resolving a quantity, selecting a tier or
returning any final cost — in particular it does not return "without
throwing". -/
theorem C3_counterexample :
    compute_finishing_cost (some ⟨.per_item, 100⟩) (some 0)
        [⟨1, 100, 5, 0⟩] ⟨some 10, none, none, none⟩ =
      .error "AttributeError: CalculationMethod has no attribute PER_JOB" := by
  rfl

